import Mathlib

/-!
Verification of the multi-step login flow controller of `src/src/App.js`
(React component `App`): the step state machine, the MFA polling loop in
`handleSignInClick`, the per-response status classification performed by the
loop body, the custom-step resubmission handler `handleCustomSubmit`, the
back-navigation handlers, the request bodies sent to `POST /auth` and
`POST /alert`, and the startup `user_id` capture.

The component state (the `useState` hooks, lines 15-32 of App.js) is embedded
as the record `AppState`; each event handler becomes a pure function from the
old state (plus an environment giving the transport results of the network
calls, in call order) to the new state together with the list of `/auth`
request bodies it issued.  The 1000 ms wait between polls is real time and is
not modelled; only the sequence of state updates and requests is.
-/

namespace MsLog

/-- The `data` payload carried by a `custom` status response
(`CustomStepDescriptor`): `{ title, subtitle, has_input }`. -/
structure CustomData where
  title : String
  subtitle : String
  has_input : Bool
deriving DecidableEq

/-- The authority's reply to `POST /auth`: a status tag plus an optional
`message` and an optional `data` payload (used only by the `custom` tag).
A field absent from the JSON is `none`. -/
structure AuthStatusResponse where
  status : String
  message : Option String
  data : Option CustomData
deriving DecidableEq

/-- The component state: one field per `useState` hook of `App` plus the
`userIdRef` is passed separately where needed (it is write-once).  Field
names and initial values follow lines 15-32 of App.js. -/
structure AppState where
  email : String
  password : String
  keepSignedIn : Bool
  isPasswordStep : Bool
  isDuoMobileStep : Bool
  isSuccessStep : Bool
  isSubmitting : Bool
  authMessage : String
  duoCode : String
  showDuoCodeInput : Bool
  isError : Bool
  dontAskAgain : Bool
  alert_email_typing : Bool
  isCustomStep : Bool
  customStepData : CustomData
  customInput : String
deriving DecidableEq

/-- The initial state of the component: every `useState` initial value of
lines 15-32 of App.js. -/
def initState : AppState :=
  { email := "", password := "", keepSignedIn := false, isPasswordStep := false,
    isDuoMobileStep := false, isSuccessStep := false, isSubmitting := false,
    authMessage := "", duoCode := "", showDuoCodeInput := false, isError := false,
    dontAskAgain := false, alert_email_typing := false, isCustomStep := false,
    customStepData := { title := "", subtitle := "", has_input := false },
    customInput := "" }

/-- The JSON body of one `POST /auth` request (lines 110-116 of App.js). -/
structure AuthRequest where
  email : String
  password : String
  duoCode : String
  customInput : String
  user_id : String
deriving DecidableEq

/-- The `/auth` request body as the ordered key/value pairs of the JSON
object built by `JSON.stringify` at lines 110-116: every key, `user_id`
included, is always present. -/
def authRequestPairs (r : AuthRequest) : List (String × String) :=
  [("email", r.email), ("password", r.password), ("duoCode", r.duoCode),
   ("customInput", r.customInput), ("user_id", r.user_id)]

/-- The JSON body of one `POST /alert` request sent by
`send_alert_notification` (line 63 of App.js). -/
def alertRequestPairs (message user_id : String) : List (String × String) :=
  [("message", message), ("user_id", user_id)]

/-- The synthetic response `get_auth_status` fabricates when the `fetch`
raises (line 121 of App.js). -/
def networkErrorResponse : AuthStatusResponse :=
  { status := "error", message := some "Network error or server is down.", data := none }

/-- The value `get_auth_status` returns (lines 104-123 of App.js).  The
transport outcome is `some r` when the fetch + JSON parse succeeded with
response `r`, and `none` when it raised; the function itself never raises,
a failure is normalized to `networkErrorResponse`. -/
def get_auth_status_result (transportResult : Option AuthStatusResponse) : AuthStatusResponse :=
  match transportResult with
  | some r => r
  | none => networkErrorResponse

/-- JavaScript `m || fallback` for an optional string `m`: the fallback is
used when the field is absent (`undefined`) and also when it is the empty
string (falsy), as in `status_data.message || '...'` at line 238 of App.js. -/
def jsOrString (m : Option String) (fallback : String) : String :=
  match m with
  | some s => if s = "" then fallback else s
  | none => fallback

/-- One iteration of the polling loop body of `handleSignInClick`
(lines 172-240 of App.js): classify `status_data` and apply its state
updates.  Returns the updated state together with the continuation verdict:
`true` when the iteration ends by `attempts++` (the loop will re-poll if the
attempt cap allows), `false` when it set `continuePolling = false`. -/
def classifyIter (status_data : AuthStatusResponse) (s : AppState) : AppState × Bool :=
  let status := status_data.status
  if status = "pending" ∨ status = "mobile notification" ∨ status = "phone_call" then
    let message :=
      if status = "mobile notification" then
        "We sent a notification to your mobile device. Please open it to continue."
      else if status = "phone_call" then
        "We're calling your phone. Please answer it to continue."
      else
        "Authentication pending. Please wait..."
    ({ s with isError := false, authMessage := message, isPasswordStep := false,
              isDuoMobileStep := true, isCustomStep := false,
              showDuoCodeInput := false }, true)
  else if status = "custom" then
    match status_data.data with
    | some customData =>
      if customData.has_input = true then
        ({ s with customStepData := customData, isPasswordStep := false,
                  isDuoMobileStep := false, isCustomStep := true, authMessage := "",
                  isSubmitting := false }, false)
      else
        ({ s with isError := false,
                  authMessage := customData.title ++ ": " ++ customData.subtitle,
                  isPasswordStep := false, isCustomStep := false,
                  isDuoMobileStep := true, showDuoCodeInput := false }, true)
    | none =>
      ({ s with isError := false, authMessage := "Processing your request...",
                isPasswordStep := false, isCustomStep := false,
                isDuoMobileStep := true, showDuoCodeInput := false }, true)
  else
    if status = "incorrect password" then
      ({ s with isError := true, authMessage := "Incorrect password. Please try again.",
                isDuoMobileStep := false, isPasswordStep := true }, false)
    else if status = "duo code" ∨ status = "incorrect duo code" then
      let isIncorrect := status = "incorrect duo code"
      ({ s with isError := isIncorrect,
                authMessage :=
                  if isIncorrect then "Incorrect code. Please try again."
                  else "Open your Duo app and Duo will send you a one time code. enter code here",
                isPasswordStep := false, isDuoMobileStep := true, isCustomStep := false,
                showDuoCodeInput := true }, false)
    else if status = "success" then
      ({ s with isSuccessStep := true, isPasswordStep := false,
                isDuoMobileStep := false, isCustomStep := false }, false)
    else
      ({ s with isError := true,
                authMessage :=
                  jsOrString status_data.message
                    "An unexpected error occurred. Please try again." }, false)

/-- The mutually exclusive visible step, read off the render precedence of
lines 274-372 of App.js: success pane, else custom pane (with the free-text
form exactly when the stored descriptor has `has_input`), else the
duo-mobile pane (code-entry form when `showDuoCodeInput`, waiting prompt
otherwise), else password pane, else email pane. -/
inductive UIStep where
  | Email
  | Password
  | DuoPrompt
  | DuoCodeInput
  | CustomInput
  | CustomWait
  | Success
deriving DecidableEq

/-- The visible step determined by the state flags (render precedence of
lines 274-372 of App.js). -/
def uiStep (s : AppState) : UIStep :=
  if s.isSuccessStep = true then UIStep.Success
  else if s.isCustomStep = true then
    (if s.customStepData.has_input = true then UIStep.CustomInput else UIStep.CustomWait)
  else if s.isDuoMobileStep = true then
    (if s.showDuoCodeInput = true then UIStep.DuoCodeInput else UIStep.DuoPrompt)
  else if s.isPasswordStep = true then UIStep.Password
  else UIStep.Email

/-- `handleBackClick` (lines 86-92 of App.js), the back button of the
duo-mobile and custom panes. -/
def handleBackClick (s : AppState) : AppState :=
  { s with isPasswordStep := true, isDuoMobileStep := false, isCustomStep := false,
           authMessage := "", isError := false }

/-- The inline back button of the password pane (line 348 of App.js). -/
def passwordStepBackClick (s : AppState) : AppState :=
  { s with isPasswordStep := false, authMessage := "", isError := false }

/-- `maxAttempts` (line 166 of App.js). -/
def maxAttempts : Nat := 60

/-- The result of one run of the polling loop: the state after the last
iteration, the `/auth` request bodies issued (in order), and the final
values of the loop locals `continuePolling` and `attempts`. -/
structure LoopOut where
  state : AppState
  requests : List AuthRequest
  continuePolling : Bool
  attempts : Nat
deriving DecidableEq

/-- The `do ... while (continuePolling && attempts < maxAttempts)` loop of
`handleSignInClick` (lines 169-241 of App.js).  `transport` gives the
transport outcome of the i-th `get_auth_status` call of this loop (`none` =
the fetch raised).  `email`, `password`, `duoCode` are the component state
values captured by the handler's closure; each query passes them with
`customInput` defaulted to `""` (line 170 calls
`get_auth_status(email, password, duoCode)`).

The extra `fuel` argument only makes the recursion structural; the loop's
own exit conditions are translated verbatim, and since each recursive call
both consumes one unit of fuel and increments `attempts`, starting with
`fuel = maxAttempts` and `attempts = 0` keeps `fuel = maxAttempts - attempts`,
so the fuel-exhaustion branch is unreachable from `pollRun` below. -/
def pollGo (transport : Nat → Option AuthStatusResponse)
    (email password duoCode user_id : String) :
    Nat → Nat → Nat → AppState → List AuthRequest → LoopOut
  | 0, _, attempts, s, reqs => ⟨s, reqs, true, attempts⟩
  | fuel + 1, qIdx, attempts, s, reqs =>
    let status_data := get_auth_status_result (transport qIdx)
    let c := classifyIter status_data s
    let reqs2 := reqs ++ [⟨email, password, duoCode, "", user_id⟩]
    if c.2 = true then
      if attempts + 1 < maxAttempts then
        pollGo transport email password duoCode user_id fuel (qIdx + 1) (attempts + 1) c.1 reqs2
      else ⟨c.1, reqs2, true, attempts + 1⟩
    else ⟨c.1, reqs2, false, attempts⟩

/-- One full run of the polling loop from the loop's entry point
(`attempts = 0`), reading `email`, `password` and `duoCode` from the state
the handler's closure sees. -/
def pollRun (transport : Nat → Option AuthStatusResponse) (user_id : String)
    (s : AppState) : LoopOut :=
  pollGo transport s.email s.password s.duoCode user_id maxAttempts 0 0 s []

/-- The post-loop epilogue of `handleSignInClick` (lines 243-251 of App.js):
the timeout outcome when the loop exhausted the attempt cap while still in a
continuation status, then `setIsSubmitting(false)` — guarded by
`if (!continuePolling)`, so it does not run on the timeout path. -/
def finishRun (out : LoopOut) : AppState :=
  let s1 :=
    if out.continuePolling = true ∧ maxAttempts ≤ out.attempts then
      { out.state with isError := true,
                       authMessage := "Authentication timed out. Please try again." }
    else out.state
  if out.continuePolling = false then { s1 with isSubmitting := false } else s1

/-- The state updates of the non-continuation entry of `handleSignInClick`
(lines 155-162 of App.js). -/
def entryStateUpdate (s : AppState) : AppState :=
  { s with isSubmitting := true, authMessage := "", isError := false,
           isPasswordStep := false, isDuoMobileStep := true,
           showDuoCodeInput := false }

/-- `handleSignInClick` (lines 151-252 of App.js): early return on an empty
password, optional entry updates, the polling loop, the epilogue.  Returns
the new state and the `/auth` request bodies issued. -/
def handleSignInClick (isContinuation : Bool)
    (transport : Nat → Option AuthStatusResponse) (user_id : String)
    (s : AppState) : AppState × List AuthRequest :=
  if s.password = "" then (s, [])
  else
    let start := if isContinuation = true then s else entryStateUpdate s
    let out := pollRun transport user_id start
    (finishRun out, out.requests)

/-- The net state updates `handleCustomSubmit` performs before restarting the
loop (lines 130-140 of App.js; the transient `'Submitting...'` message of
line 131 is overwritten by line 140 within the same handler). -/
def customSubmitStateUpdate (s : AppState) : AppState :=
  { s with isSubmitting := true, isError := false, customInput := "",
           isCustomStep := false, isDuoMobileStep := true,
           showDuoCodeInput := false,
           authMessage := "Authentication pending. Please wait..." }

/-- `handleCustomSubmit` (lines 128-143 of App.js): one immediate
`get_auth_status(email, password, '', customInput)` call whose response is
discarded (it consumes transport slot 0), the state resets of lines 136-140,
then `handleSignInClick(e, true)` — whose loop queries use the closure's
`duoCode` and the default `customInput = ''`.  Returns the new state and all
`/auth` request bodies issued (the immediate one first). -/
def handleCustomSubmit (transport : Nat → Option AuthStatusResponse)
    (user_id : String) (s : AppState) : AppState × List AuthRequest :=
  let out := handleSignInClick true (fun i => transport (i + 1)) user_id
    (customSubmitStateUpdate s)
  (out.1, ⟨s.email, s.password, "", s.customInput, user_id⟩ :: out.2)

/-- JavaScript `pathname.split(sep)` for a one-character separator, on the
character list of the string: splitting `"/abc"` gives `["", "abc"]`. -/
def splitChar (c : Char) : List Char → List (List Char)
  | [] => [[]]
  | a :: rest =>
    let r := splitChar c rest
    if a = c then [] :: r
    else
      match r with
      | [] => [[a]]
      | h :: t => (a :: h) :: t

/-- `window.location.pathname.split('/')[1]` (lines 39-40 of App.js). -/
def firstSegment (pathname : String) : String :=
  ⟨(splitChar (Char.ofNat 47) pathname.data).getD 1 []⟩

/-- The startup `user_id` capture (lines 38-48 of App.js): the first path
segment when it is non-empty and matches `/^\d+$/`, else the ref keeps its
initial value `''`. -/
def captureUserId (pathname : String) : String :=
  if firstSegment pathname ≠ "" ∧ (firstSegment pathname).data.all Char.isDigit = true then
    firstSegment pathname
  else ""

/-- A `pending` response with no optional fields. -/
def pendingResponse : AuthStatusResponse :=
  { status := "pending", message := none, data := none }

/-- A `success` response with no optional fields. -/
def successResponse : AuthStatusResponse :=
  { status := "success", message := none, data := none }

/-- A transport on which every query succeeds and returns `pending`. -/
def pendingTransport : Nat → Option AuthStatusResponse := fun _ => some pendingResponse

/-- A transport on which every query succeeds and returns `success`. -/
def successTransport : Nat → Option AuthStatusResponse := fun _ => some successResponse

/-- The state updates the continuation branch of the loop applies for a
`pending` response (lines 175-186 of App.js). -/
def pendingApplied (s : AppState) : AppState :=
  { s with isError := false,
           authMessage := "Authentication pending. Please wait...",
           isPasswordStep := false, isDuoMobileStep := true, isCustomStep := false,
           showDuoCodeInput := false }

/-- A concrete state sitting on the password pane with a non-empty password,
used as a sample run entry point. -/
def passwordState : AppState :=
  { initState with email := "ab", password := "p", isPasswordStep := true }

/-- A concrete state sitting on the custom input pane with a typed free-text
value, used as a sample custom-submission entry point. -/
def customState : AppState :=
  { initState with email := "ab", password := "p", isCustomStep := true,
                   customStepData := { title := "T", subtitle := "S", has_input := true },
                   customInput := "xyz" }

/-- The unclassified statuses of the response vocabulary: every status tag
with a dedicated branch in the loop body (lines 175-231 of App.js). -/
def statusVocabulary : List String :=
  ["pending", "mobile notification", "phone_call", "custom",
   "incorrect password", "duo code", "incorrect duo code", "success"]

lemma classify_pending (s : AppState) :
    classifyIter pendingResponse s = (pendingApplied s, true) := rfl

lemma pendingApplied_idem (s : AppState) :
    pendingApplied (pendingApplied s) = pendingApplied s := rfl

lemma authRequestPairs_lookup (r : AuthRequest) :
    (authRequestPairs r).lookup "user_id" = some r.user_id := rfl

lemma handleSignInClick_empty (isContinuation : Bool)
    (T : Nat → Option AuthStatusResponse) (uid : String) (s : AppState)
    (h : s.password = "") : handleSignInClick isContinuation T uid s = (s, []) := by
  simp [handleSignInClick, h]

lemma handleSignInClick_fresh (T : Nat → Option AuthStatusResponse) (uid : String)
    (s : AppState) (h : s.password ≠ "") :
    handleSignInClick false T uid s =
      (finishRun (pollRun T uid (entryStateUpdate s)),
       (pollRun T uid (entryStateUpdate s)).requests) := by
  simp [handleSignInClick, h]

lemma handleSignInClick_cont (T : Nat → Option AuthStatusResponse) (uid : String)
    (s : AppState) (h : s.password ≠ "") :
    handleSignInClick true T uid s =
      (finishRun (pollRun T uid s), (pollRun T uid s).requests) := by
  simp [handleSignInClick, h]

lemma pollGo_requests (T : Nat → Option AuthStatusResponse) (em pw dc uid : String) :
    ∀ fuel qIdx attempts (s : AppState) (reqs : List AuthRequest) (r : AuthRequest),
      r ∈ (pollGo T em pw dc uid fuel qIdx attempts s reqs).requests →
      r ∈ reqs ∨ r = ⟨em, pw, dc, "", uid⟩ := by
  intro fuel
  induction fuel with
  | zero =>
    intro qIdx attempts s reqs r h
    simp only [pollGo] at h
    exact Or.inl h
  | succ f ih =>
    intro qIdx attempts s reqs r h
    simp only [pollGo] at h
    split at h
    · split at h
      · rcases ih _ _ _ _ _ h with h1 | h1
        · rcases List.mem_append.mp h1 with h2 | h2
          · exact Or.inl h2
          · exact Or.inr (List.mem_singleton.mp h2)
        · exact Or.inr h1
      · rcases List.mem_append.mp h with h2 | h2
        · exact Or.inl h2
        · exact Or.inr (List.mem_singleton.mp h2)
    · rcases List.mem_append.mp h with h2 | h2
      · exact Or.inl h2
      · exact Or.inr (List.mem_singleton.mp h2)

lemma pollRun_requests (T : Nat → Option AuthStatusResponse) (uid : String)
    (s : AppState) (r : AuthRequest) (h : r ∈ (pollRun T uid s).requests) :
    r = ⟨s.email, s.password, s.duoCode, "", uid⟩ := by
  rcases pollGo_requests T s.email s.password s.duoCode uid maxAttempts 0 0 s [] r h with
    h1 | h1
  · simp at h1
  · exact h1

lemma pollGo_pending (em pw dc uid : String) :
    ∀ fuel attempts qIdx (s : AppState) (reqs : List AuthRequest),
      fuel + attempts = maxAttempts → 0 < fuel →
      pollGo (fun _ => some pendingResponse) em pw dc uid fuel qIdx attempts s reqs =
        ⟨pendingApplied s, reqs ++ List.replicate fuel ⟨em, pw, dc, "", uid⟩,
         true, maxAttempts⟩ := by
  intro fuel
  induction fuel with
  | zero =>
    intro attempts qIdx s reqs _ h0
    exact absurd h0 (by omega)
  | succ f ih =>
    intro attempts qIdx s reqs hsum _
    have hstep : pollGo (fun _ => some pendingResponse) em pw dc uid (f + 1) qIdx attempts
        s reqs =
        (if attempts + 1 < maxAttempts then
          pollGo (fun _ => some pendingResponse) em pw dc uid f (qIdx + 1) (attempts + 1)
            (pendingApplied s) (reqs ++ [⟨em, pw, dc, "", uid⟩])
        else ⟨pendingApplied s, reqs ++ [⟨em, pw, dc, "", uid⟩], true, attempts + 1⟩) := by
      simp only [pollGo, get_auth_status_result, classify_pending, if_true]
    rcases Nat.lt_or_ge (attempts + 1) maxAttempts with hlt | hge
    · have hf : 0 < f := by
        have : maxAttempts = 60 := rfl
        omega
      rw [hstep, if_pos hlt, ih _ _ _ _ (by omega) hf, pendingApplied_idem]
      simp [List.replicate_succ, List.append_assoc]
    · have hf0 : f = 0 := by
        have : maxAttempts = 60 := rfl
        omega
      have ha : attempts + 1 = maxAttempts := by
        have : maxAttempts = 60 := rfl
        omega
      subst hf0
      rw [hstep, if_neg (Nat.not_lt.mpr hge), ha]
      simp

lemma pollRun_pending (uid : String) (s : AppState) :
    pollRun pendingTransport uid s =
      ⟨pendingApplied s,
       List.replicate maxAttempts ⟨s.email, s.password, s.duoCode, "", uid⟩,
       true, maxAttempts⟩ := by
  have h := pollGo_pending s.email s.password s.duoCode uid maxAttempts 0 0 s []
    (Nat.add_zero _) (by decide)
  simpa [pollRun, pendingTransport] using h

/-- C1, counterexample: submitting custom-step free text `"xyz"` (from
`customState`, with an empty stored `duoCode`) issues two `/auth` queries;
the single status query of the restarted loop instance carries
`customInput = ""`, not the submitted `"xyz"`, because the loop calls
`get_auth_status(email, password, duoCode)` and lets `customInput` default
to `''` (line 170 of App.js).  This refutes the claim that every status
query of the new loop carries the submitted `customInput`. -/
theorem C1_custom_submit_cex :
    customState.customInput = "xyz" ∧
    (handleCustomSubmit successTransport "u" customState).2.length = 2 ∧
    ((handleCustomSubmit successTransport "u" customState).2.getD 1
      ⟨"", "", "", "", ""⟩).customInput = "" ∧
    ((handleCustomSubmit successTransport "u" customState).2.getD 1
      ⟨"", "", "", "", ""⟩).customInput ≠ customState.customInput := by
  decide

/-- C1, amended: a custom-step submission issues one immediate query whose
body carries the submitted `customInput` and an empty `duoCode`, and then
starts a new loop instance every one of whose status queries carries an
empty `customInput` and the invocation-time `duoCode`. -/
theorem C1_custom_submit_requests (T : Nat → Option AuthStatusResponse) (uid : String)
    (s : AppState) :
    (handleCustomSubmit T uid s).2.head? =
      some ⟨s.email, s.password, "", s.customInput, uid⟩ ∧
    ((handleCustomSubmit T uid s).2.tail.all
      (fun r => r.customInput == "" && r.duoCode == s.duoCode)) = true := by
  constructor
  · simp [handleCustomSubmit]
  · rw [List.all_eq_true]
    intro r hr
    simp only [handleCustomSubmit, List.tail_cons] at hr
    by_cases hp : (customSubmitStateUpdate s).password = ""
    · rw [handleSignInClick_empty true (fun i => T (i + 1)) uid _ hp] at hr
      simp at hr
    · rw [handleSignInClick_cont (fun i => T (i + 1)) uid _ hp] at hr
      have hreq := pollRun_requests (fun i => T (i + 1)) uid _ r hr
      subst hreq
      simp [customSubmitStateUpdate]

/-- C2: the timeout path of `handleSignInClick` does not clear the
busy/submitting flag.  On a fresh sign-in from `passwordState` where all 60
queries return `pending`, the loop halts at the attempt cap with the timeout
error outcome, yet `isSubmitting` is still `true` afterwards: line 250 of
App.js runs `setIsSubmitting(false)` only when `continuePolling` is false,
and on the timeout path it is still true — contradicting the code's own
comment, "Final check to ensure spinner stops if loop ended for any reason"
(line 248).  The classifier-halt path (last conjunct, a `success` response)
does clear the flag. -/
theorem C2_timeout_keeps_submitting :
    (handleSignInClick false pendingTransport "u" passwordState).1.isSubmitting = true ∧
    (handleSignInClick false pendingTransport "u" passwordState).1.authMessage =
      "Authentication timed out. Please try again." ∧
    (handleSignInClick false pendingTransport "u" passwordState).2.length = maxAttempts ∧
    (handleSignInClick false successTransport "u" passwordState).1.isSubmitting = false := by
  decide

/-- C3: for every response whose status is `pending`, `mobile notification`
or `phone_call`, and for every prior state, one classification step
continues polling, clears the error flag, sets the DuoPrompt pane flags, and
sets the respective message; the visible step is DuoPrompt whenever the
(absorbing, never-polling) success flag is not already set. -/
theorem C3_continuation_statuses (r : AuthStatusResponse) (s : AppState)
    (h : r.status = "pending" ∨ r.status = "mobile notification" ∨
         r.status = "phone_call") :
    (classifyIter r s).2 = true ∧
    (classifyIter r s).1.isError = false ∧
    (classifyIter r s).1.isPasswordStep = false ∧
    (classifyIter r s).1.isDuoMobileStep = true ∧
    (classifyIter r s).1.isCustomStep = false ∧
    (classifyIter r s).1.showDuoCodeInput = false ∧
    (s.isSuccessStep = false → uiStep (classifyIter r s).1 = UIStep.DuoPrompt) ∧
    (classifyIter r s).1.authMessage =
      (if r.status = "mobile notification" then
        "We sent a notification to your mobile device. Please open it to continue."
      else if r.status = "phone_call" then
        "We're calling your phone. Please answer it to continue."
      else "Authentication pending. Please wait...") := by
  rcases h with h | h | h <;>
    refine ⟨?_, ?_, ?_, ?_, ?_, ?_, ?_, ?_⟩ <;>
    first
      | (intro hs; simp [classifyIter, uiStep, h, hs])
      | simp [classifyIter, h]

/-- C3, witness at a `pending` response from the password-pane state. -/
theorem C3_continuation_statuses_witness :
    (classifyIter pendingResponse passwordState).2 = true ∧
    (classifyIter pendingResponse passwordState).1.isError = false ∧
    uiStep (classifyIter pendingResponse passwordState).1 = UIStep.DuoPrompt ∧
    (classifyIter pendingResponse passwordState).1.authMessage =
      "Authentication pending. Please wait..." := by
  have h := C3_continuation_statuses pendingResponse passwordState (Or.inl rfl)
  exact ⟨h.1, h.2.1, h.2.2.2.2.2.2.1 rfl, by simpa using h.2.2.2.2.2.2.2⟩

/-- C4, counterexample: classifying `custom` with `has_input = false` does
not enter a distinct custom-wait pane: it leaves `isCustomStep = false` and
shows the standard DuoPrompt waiting pane (lines 204-210 of App.js set
`isDuoMobileStep`, not `isCustomStep`), so the next step is not the
`CustomWait` rendering (the custom pane without input form). -/
theorem C4_custom_wait_cex :
    (classifyIter ⟨"custom", none, some ⟨"T", "S", false⟩⟩ passwordState).2 = true ∧
    uiStep (classifyIter ⟨"custom", none, some ⟨"T", "S", false⟩⟩ passwordState).1 ≠
      UIStep.CustomWait ∧
    uiStep (classifyIter ⟨"custom", none, some ⟨"T", "S", false⟩⟩ passwordState).1 =
      UIStep.DuoPrompt ∧
    (classifyIter ⟨"custom", none, some ⟨"T", "S", false⟩⟩ passwordState).1.isCustomStep =
      false := by
  decide

/-- C4, amended: for a `custom` response, if `data.has_input` is true
classification halts polling, stores the descriptor, clears the message (and
the busy flag) and shows the custom input pane; if `data.has_input` is false
or `data` is absent it keeps polling and shows the DuoPrompt waiting pane
(not a distinct custom-wait pane) with message `title ++ ": " ++ subtitle`
when data is present, else `"Processing your request..."`. -/
theorem C4_custom_branching (s : AppState) (cd : CustomData) (msg : Option String) :
    (cd.has_input = true →
      (classifyIter ⟨"custom", msg, some cd⟩ s).2 = false ∧
      (classifyIter ⟨"custom", msg, some cd⟩ s).1.authMessage = "" ∧
      (classifyIter ⟨"custom", msg, some cd⟩ s).1.customStepData = cd ∧
      (classifyIter ⟨"custom", msg, some cd⟩ s).1.isSubmitting = false ∧
      (s.isSuccessStep = false →
        uiStep (classifyIter ⟨"custom", msg, some cd⟩ s).1 = UIStep.CustomInput)) ∧
    (cd.has_input = false →
      (classifyIter ⟨"custom", msg, some cd⟩ s).2 = true ∧
      (classifyIter ⟨"custom", msg, some cd⟩ s).1.authMessage =
        cd.title ++ ": " ++ cd.subtitle ∧
      (classifyIter ⟨"custom", msg, some cd⟩ s).1.isCustomStep = false ∧
      (classifyIter ⟨"custom", msg, some cd⟩ s).1.isError = false ∧
      (s.isSuccessStep = false →
        uiStep (classifyIter ⟨"custom", msg, some cd⟩ s).1 = UIStep.DuoPrompt)) ∧
    ((classifyIter ⟨"custom", msg, none⟩ s).2 = true ∧
     (classifyIter ⟨"custom", msg, none⟩ s).1.authMessage = "Processing your request..." ∧
     (classifyIter ⟨"custom", msg, none⟩ s).1.isError = false ∧
     (s.isSuccessStep = false →
       uiStep (classifyIter ⟨"custom", msg, none⟩ s).1 = UIStep.DuoPrompt)) := by
  refine ⟨fun h => ⟨?_, ?_, ?_, ?_, fun hs => ?_⟩,
          fun h => ⟨?_, ?_, ?_, ?_, fun hs => ?_⟩,
          ⟨?_, ?_, ?_, fun hs => ?_⟩⟩ <;>
    simp [classifyIter, uiStep, *]

/-- C4, witness at concrete descriptors from the password-pane state. -/
theorem C4_custom_branching_witness :
    (classifyIter ⟨"custom", none, some ⟨"T", "S", true⟩⟩ passwordState).2 = false ∧
    uiStep (classifyIter ⟨"custom", none, some ⟨"T", "S", true⟩⟩ passwordState).1 =
      UIStep.CustomInput ∧
    (classifyIter ⟨"custom", none, some ⟨"T", "S", false⟩⟩ passwordState).2 = true ∧
    (classifyIter ⟨"custom", none, some ⟨"T", "S", false⟩⟩ passwordState).1.authMessage =
      "T: S" ∧
    (classifyIter ⟨"custom", none, none⟩ passwordState).1.authMessage =
      "Processing your request..." := by
  have h1 := (C4_custom_branching passwordState ⟨"T", "S", true⟩ none).1 rfl
  have h2 := (C4_custom_branching passwordState ⟨"T", "S", false⟩ none).2.1 rfl
  have h3 := (C4_custom_branching passwordState ⟨"T", "S", false⟩ none).2.2
  exact ⟨h1.1, h1.2.2.2.2 rfl, h2.1, by simpa using h2.2.1, h3.2.1⟩

/-- C5: a fresh sign-in run fed only `pending` responses issues exactly 60
status queries, halts, and ends with the error flag set and the timeout
message `"Authentication timed out. Please try again."`. -/
theorem C5_pending_attempt_bound (s : AppState) (uid : String) (h : s.password ≠ "") :
    (handleSignInClick false pendingTransport uid s).2.length = maxAttempts ∧
    (handleSignInClick false pendingTransport uid s).1.isError = true ∧
    (handleSignInClick false pendingTransport uid s).1.authMessage =
      "Authentication timed out. Please try again." := by
  rw [handleSignInClick_fresh pendingTransport uid s h,
    pollRun_pending uid (entryStateUpdate s)]
  refine ⟨?_, ?_, ?_⟩ <;> simp [finishRun]

/-- C5, witness at the password-pane state. -/
theorem C5_pending_attempt_bound_witness :
    (handleSignInClick false pendingTransport "u" passwordState).2.length = maxAttempts ∧
    (handleSignInClick false pendingTransport "u" passwordState).1.isError = true ∧
    (handleSignInClick false pendingTransport "u" passwordState).1.authMessage =
      "Authentication timed out. Please try again." :=
  C5_pending_attempt_bound passwordState "u" (by decide)

/-- C6: a transport failure on the status query never raises — it is
normalized to the synthetic response
`{status: "error", message: "Network error or server is down."}`, and
classifying that response from any state halts polling through the catch-all
branch with the error flag set and the synthetic message shown. -/
theorem C6_network_failure_normalized (s : AppState) :
    get_auth_status_result none = networkErrorResponse ∧
    networkErrorResponse.status = "error" ∧
    networkErrorResponse.message = some "Network error or server is down." ∧
    (classifyIter networkErrorResponse s).2 = false ∧
    (classifyIter networkErrorResponse s).1.isError = true ∧
    (classifyIter networkErrorResponse s).1.authMessage =
      "Network error or server is down." := by
  refine ⟨rfl, rfl, rfl, ?_, ?_, ?_⟩ <;> rfl

/-- C7, counterexample: for an unrecognized status carrying the present but
empty message `""`, the code does not show the message verbatim — JavaScript
`status_data.message || fallback` (line 238 of App.js) treats the empty
string as falsy and shows the generic fallback instead. -/
theorem C7_empty_message_cex :
    (⟨"error", some "", none⟩ : AuthStatusResponse).message = some "" ∧
    (classifyIter ⟨"error", some "", none⟩ initState).1.authMessage ≠ "" ∧
    (classifyIter ⟨"error", some "", none⟩ initState).1.authMessage =
      "An unexpected error occurred. Please try again." := by
  decide

/-- C7, amended: for every response whose status is outside the fixed
vocabulary (the network-error sentinel `"error"` included), classification
halts polling with the error flag set, leaves every step flag unchanged (the
error is shown on the current pane), and shows the response's own message
verbatim when it is present and non-empty, else the generic fallback. -/
theorem C7_unrecognized_terminal (r : AuthStatusResponse) (s : AppState)
    (h : r.status ∉ statusVocabulary) :
    (classifyIter r s).2 = false ∧
    (classifyIter r s).1.isError = true ∧
    (classifyIter r s).1.authMessage =
      jsOrString r.message "An unexpected error occurred. Please try again." ∧
    (classifyIter r s).1.isPasswordStep = s.isPasswordStep ∧
    (classifyIter r s).1.isDuoMobileStep = s.isDuoMobileStep ∧
    (classifyIter r s).1.isCustomStep = s.isCustomStep ∧
    (classifyIter r s).1.isSuccessStep = s.isSuccessStep ∧
    (classifyIter r s).1.showDuoCodeInput = s.showDuoCodeInput := by
  simp only [statusVocabulary, List.mem_cons, List.not_mem_nil, or_false, not_or] at h
  obtain ⟨h1, h2, h3, h4, h5, h6, h7, h8⟩ := h
  simp [classifyIter, h1, h2, h3, h4, h5, h6, h7, h8]

/-- C7, witness at an unrecognized status with a non-empty message. -/
theorem C7_unrecognized_terminal_witness :
    (classifyIter ⟨"bogus", some "boom", none⟩ initState).2 = false ∧
    (classifyIter ⟨"bogus", some "boom", none⟩ initState).1.isError = true ∧
    (classifyIter ⟨"bogus", some "boom", none⟩ initState).1.authMessage = "boom" := by
  have h := C7_unrecognized_terminal ⟨"bogus", some "boom", none⟩ initState (by decide)
  exact ⟨h.1, h.2.1, by simpa [jsOrString] using h.2.2.1⟩

/-- C8: back navigation is asymmetric — from the DuoPrompt, DuoCodeInput,
CustomInput or CustomWait panes, `handleBackClick` lands on the Password
pane (not Email); from the Password pane, its inline back button lands on
the Email pane. -/
theorem C8_back_navigation (s : AppState) :
    ((uiStep s = UIStep.DuoPrompt ∨ uiStep s = UIStep.DuoCodeInput ∨
      uiStep s = UIStep.CustomInput ∨ uiStep s = UIStep.CustomWait) →
      uiStep (handleBackClick s) = UIStep.Password) ∧
    (uiStep s = UIStep.Password → uiStep (passwordStepBackClick s) = UIStep.Email) := by
  cases hsu : s.isSuccessStep <;> cases hcu : s.isCustomStep <;>
    cases hdu : s.isDuoMobileStep <;> cases hps : s.isPasswordStep <;>
    cases hsd : s.showDuoCodeInput <;> cases hhi : s.customStepData.has_input <;>
    simp_all [uiStep, handleBackClick, passwordStepBackClick]

/-- C8, witness: back from a concrete DuoPrompt state lands on Password, and
back from the password-pane state lands on Email. -/
theorem C8_back_navigation_witness :
    uiStep (handleBackClick (pendingApplied passwordState)) = UIStep.Password ∧
    uiStep (passwordStepBackClick passwordState) = UIStep.Email :=
  ⟨(C8_back_navigation (pendingApplied passwordState)).1 (Or.inl (by decide)),
   (C8_back_navigation passwordState).2 (by decide)⟩

/-- C9, counterexample: when the first path segment is not purely numeric
(path `"/abc"`), `user_id` is not omitted from the request body — the body
built at lines 110-116 of App.js always carries the `user_id` key, here with
the empty-string value of the never-assigned ref. -/
theorem C9_user_id_omission_cex :
    captureUserId "/abc" = "" ∧
    (handleSignInClick false successTransport (captureUserId "/abc")
      passwordState).2.length = 1 ∧
    (authRequestPairs ((handleSignInClick false successTransport (captureUserId "/abc")
      passwordState).2.getD 0 ⟨"", "", "", "", ""⟩)).lookup "user_id" = some "" := by
  decide

/-- C9, amended: the identifier is derived from the first path segment —
the segment itself when purely numeric, else the empty string — and every
`/auth` request body (and every `/alert` body) carries the `user_id` key
with exactly that value; a non-numeric segment yields `user_id = ""` rather
than omission, and the authority applies its own default. -/
theorem C9_user_id_requests (pathname : String) (T : Nat → Option AuthStatusResponse)
    (s : AppState) (m : String) :
    ((handleSignInClick false T (captureUserId pathname) s).2.all
      (fun r => r.user_id == captureUserId pathname)) = true ∧
    (∀ r : AuthRequest, (authRequestPairs r).lookup "user_id" = some r.user_id) ∧
    (alertRequestPairs m (captureUserId pathname)).lookup "user_id" =
      some (captureUserId pathname) ∧
    (firstSegment pathname ≠ "" ∧ (firstSegment pathname).data.all Char.isDigit = true →
      captureUserId pathname = firstSegment pathname) ∧
    (¬(firstSegment pathname ≠ "" ∧
        (firstSegment pathname).data.all Char.isDigit = true) →
      captureUserId pathname = "") := by
  refine ⟨?_, fun r => authRequestPairs_lookup r, rfl, fun h => ?_, fun h => ?_⟩
  · rw [List.all_eq_true]
    intro r hr
    by_cases hp : s.password = ""
    · rw [handleSignInClick_empty false T (captureUserId pathname) s hp] at hr
      simp at hr
    · rw [handleSignInClick_fresh T (captureUserId pathname) s hp] at hr
      have hreq := pollRun_requests T (captureUserId pathname) _ r hr
      subst hreq
      simp
  · simp [captureUserId, h]
  · unfold captureUserId
    exact if_neg h

/-- C9, witness at the numeric path `"/123/abc"` and a concrete run. -/
theorem C9_user_id_requests_witness :
    ((handleSignInClick false successTransport (captureUserId "/123/abc")
      passwordState).2.all (fun r => r.user_id == captureUserId "/123/abc")) = true ∧
    captureUserId "/123/abc" = firstSegment "/123/abc" ∧
    captureUserId "/123/abc" = "123" ∧
    (alertRequestPairs "hello" (captureUserId "/123/abc")).lookup "user_id" =
      some "123" := by
  have h := C9_user_id_requests "/123/abc" successTransport passwordState "hello"
  exact ⟨h.1, h.2.2.2.1 (by decide), by decide, by decide⟩

/-- C10: invoking the sign-in submit with an empty password returns
immediately — no status query is issued, no loop starts, and the state is
returned entirely unchanged (line 153 of App.js). -/
theorem C10_empty_password_noop (T : Nat → Option AuthStatusResponse) (uid : String)
    (s : AppState) (h : s.password = "") :
    handleSignInClick false T uid s = (s, []) := by
  simp [handleSignInClick, h]

/-- C10, witness at the initial state (empty password). -/
theorem C10_empty_password_noop_witness :
    handleSignInClick false successTransport "" initState = (initState, []) :=
  C10_empty_password_noop successTransport "" initState rfl

end MsLog
